import Mathlib

/-!
Verification of the pymodoro countdown-timer daemon.

The development shallowly embeds the core of `src/pymodoro/daemon.py`
(the Runner loop `run_timer`, the Supervisor class `Timer`, and the
Listener accept loop in `main`) and `format_duration` from
`src/pymodoro/cli.py`, and proves or refutes the behavioural claims of
the design document against these embeddings.

Modelling conventions:
- Wall-clock time is modelled by integers.  `time.time()` observations
  appear as the `now` field of a `TickObs`; since times are integral,
  the Python `round(duration - elapsed_time)` is the identity and is
  written `duration - elapsed`.
- One `TickObs` records one evaluation of the Runner loop head: the
  clock value read by the walrus assignment and the message (if any)
  consumed by `conn.recv()` in that iteration.  When the Runner is not
  paused and no message is pending, `poll()` fails and the loop
  continues to the next tick; when it is paused and no message ever
  arrives, the blocking `conn.recv()` never returns, which the model
  renders as outcome `running` with no further progress.
- The Supervisor-side pipe endpoint is a `Handle`: `alive` is what
  `process.is_alive()` reports during one operation, and `reply` is the
  status message the Runner would send back, `none` for a stalled
  Runner that never replies (in which case `conn.recv()`, which has no
  timeout parameter, blocks forever — modelled by `hang`/`hung`
  results).
- An uncaught Python exception in the daemon process (for example
  `json.loads` raising on a malformed request) is modelled by `none`:
  no response is produced and the accept loop makes no further
  progress.
-/

namespace Pymodoro

/-- Messages the Supervisor writes to the control pipe: the strings
"STATUS", "STOP", "PAUSE", "RESUME" in `daemon.py`. -/
inductive Msg where
  | status
  | stop
  | pause
  | resume
deriving DecidableEq, Repr

/-- The dictionary the Runner sends back for a "STATUS" request
(`daemon.py`, `run_timer`): duration, remaining and the paused flag. -/
structure StatusReply where
  duration : Int
  remaining : Int
  is_paused : Bool
deriving DecidableEq, Repr

/-- One evaluation of the Runner loop head: `now` is the value of
`time.time()` read by the walrus assignment, `msg` the message (if any)
consumed by `conn.recv()` in that iteration. -/
structure TickObs where
  now : Int
  msg : Option Msg
deriving DecidableEq, Repr

/-- How the Runner loop ended: still inside the loop when the observed
schedule ran out (or blocked in `conn.recv()` while paused), exited
because the while condition failed (natural completion, Python runs the
`else:` branch), or exited via `break` on a "STOP" message. -/
inductive LoopOutcome where
  | running
  | natural
  | stopped
deriving DecidableEq, Repr

/-- The three lifecycle hooks of the config: `begin_cmd`, `done_cmd`,
`end_cmd`. -/
inductive Hook where
  | hbegin
  | hdone
  | hend
deriving DecidableEq, Repr

/-- The while loop of `run_timer` (`daemon.py` lines 100-119).  Each
iteration recomputes `elapsed_time := time.time() - start`; the loop
runs while `elapsed_time < duration`.  When not paused it polls and, if
no message is pending, continues; otherwise (or when paused, where it
blocks in `conn.recv()`) it handles the received message.  A "STATUS"
reply reports `round(duration - elapsed_time)` — with integral time,
`duration - elapsed`.  Note that `elapsed_time` is always total
wall-clock time since `start`, also while paused. -/
def runLoop (duration start : Int) : Bool → List TickObs → List StatusReply × LoopOutcome
  | _, [] => ([], LoopOutcome.running)
  | is_paused, t :: ts =>
    let elapsed := t.now - start
    if duration ≤ elapsed then
      ([], LoopOutcome.natural)
    else
      match t.msg with
      | none =>
        if is_paused then
          ([], LoopOutcome.running)
        else
          runLoop duration start is_paused ts
      | some Msg.status =>
        let rest := runLoop duration start is_paused ts
        (⟨duration, duration - elapsed, is_paused⟩ :: rest.1, rest.2)
      | some Msg.stop => ([], LoopOutcome.stopped)
      | some Msg.pause => runLoop duration start true ts
      | some Msg.resume => runLoop duration start false ts

/-- The observable result of one Runner execution: the status replies it
sent, how its loop ended, and the hook invocations in order. -/
structure RunResult where
  replies : List StatusReply
  outcome : LoopOutcome
  hooks : List Hook
deriving DecidableEq, Repr

/-- `run_timer` (`daemon.py` lines 96-123): call `begin_cmd`, run the
countdown loop starting unpaused, call `done_cmd` only when the while
loop ends by its condition failing (Python `while/else`), and call
`end_cmd` unconditionally after the loop has exited. -/
def run_timer (duration start : Int) (ticks : List TickObs) : RunResult :=
  let r := runLoop duration start false ticks
  { replies := r.1
    outcome := r.2
    hooks :=
      [Hook.hbegin] ++
        (if r.2 = LoopOutcome.natural then [Hook.hdone] else []) ++
        (if r.2 = LoopOutcome.running then [] else [Hook.hend]) }

/-- The Supervisor's stored `{"process": ..., "conn": ...}` entry:
`alive` is what `process.is_alive()` reports during the operation, and
`reply` is the status message the Runner would answer with (`none` for a
Runner that never replies). -/
structure Handle where
  alive : Bool
  reply : Option StatusReply
deriving DecidableEq, Repr

/-- `Timer._cleanup`: forget the handle once the process is observed
dead. -/
def Timer.cleanup : Option Handle → Option Handle
  | none => none
  | some h => if h.alive then some h else none

/-- `Timer._is_running`: reap, then report whether a handle remains; the
reaped state is returned alongside because `_cleanup` mutates
`self._timer`. -/
def Timer.is_running (st : Option Handle) : Bool × Option Handle :=
  ((Timer.cleanup st).isSome, Timer.cleanup st)

/-- Outcome of `Timer.status`: `idle` models returning `None`, `got`
models a received reply, `hang` models blocking forever in the
timeout-free `conn.recv()` because the Runner never replies. -/
inductive StatusResult where
  | idle
  | got (r : StatusReply)
  | hang
deriving DecidableEq, Repr

/-- `Timer.status` (`daemon.py` lines 58-63): return `None` when not
running; otherwise send "STATUS" and block in `conn.recv()` — a call
that takes no timeout argument — until the Runner replies. -/
def Timer.status (st : Option Handle) : StatusResult × Option Handle :=
  match Timer.is_running st with
  | (false, st') => (StatusResult.idle, st')
  | (true, st') =>
    match st' with
    | none => (StatusResult.idle, none)
    | some h =>
      match h.reply with
      | some r => (StatusResult.got r, some h)
      | none => (StatusResult.hang, some h)

/-- The wait inside the `conn.recv()` of `Timer.status`.  `replyAt` is
the step at which the Runner's reply arrives (`none` for a stalled
Runner); the call site passes no timeout, so
`status_recv_waiting replyAt n` holds exactly when the Supervisor is
still blocked after `n` steps of waiting. -/
def status_recv_waiting (replyAt : Option Nat) (n : Nat) : Bool :=
  match replyAt with
  | some t => decide (n < t)
  | none => true

/-- `Timer._is_paused`: a full status query; `None` counts as not
paused.  Returns the flag (or `none` if the query hangs), the mutated
handle state, and the pipe messages sent. -/
def Timer.is_paused (st : Option Handle) : Option Bool × Option Handle × List Msg :=
  match Timer.status st with
  | (StatusResult.hang, st') => (none, st', [Msg.status])
  | (StatusResult.idle, st') => (some false, st', [])
  | (StatusResult.got r, st') => (some r.is_paused, st', [Msg.status])

/-- Result of `Timer.start`. -/
inductive StartResult where
  | started
  | alreadyRunning
deriving DecidableEq, Repr

/-- `Timer.start` (`daemon.py` lines 44-50): raise `AlreadyRunning` when
a live handle exists after reaping; otherwise spawn a Runner process and
store the new handle.  `newHandle` stands for the freshly created
process/pipe pair. -/
def Timer.start (st : Option Handle) (newHandle : Handle) :
    StartResult × Option Handle × List Msg :=
  match Timer.is_running st with
  | (true, st') => (StartResult.alreadyRunning, st', [])
  | (false, _) => (StartResult.started, some newHandle, [])

/-- Result of `Timer.stop`. -/
inductive StopResult where
  | stopped
  | notRunning
deriving DecidableEq, Repr

/-- `Timer.stop` (`daemon.py` lines 52-56): raise `NotRunning` when no
live handle exists; otherwise send "STOP".  The method does not assign
`self._timer = None`. -/
def Timer.stop (st : Option Handle) : StopResult × Option Handle × List Msg :=
  match Timer.is_running st with
  | (false, st') => (StopResult.notRunning, st', [])
  | (true, st') => (StopResult.stopped, st', [Msg.stop])

/-- Result of `Timer.pause`; `hung` models an operation stuck forever in
the status query's `conn.recv()`. -/
inductive PauseResult where
  | paused
  | alreadyPaused
  | notRunning
  | hung
deriving DecidableEq, Repr

/-- `Timer.pause` (`daemon.py` lines 65-71): raise `AlreadyPaused` when
the status query reports paused; then raise `NotRunning` when no live
handle exists; otherwise send "PAUSE". -/
def Timer.pause (st : Option Handle) : PauseResult × Option Handle × List Msg :=
  match Timer.is_paused st with
  | (none, st', ms) => (PauseResult.hung, st', ms)
  | (some true, st', ms) => (PauseResult.alreadyPaused, st', ms)
  | (some false, st', ms) =>
    match Timer.is_running st' with
    | (true, st'') => (PauseResult.paused, st'', ms ++ [Msg.pause])
    | (false, st'') => (PauseResult.notRunning, st'', ms)

/-- Result of `Timer.resume`. -/
inductive ResumeResult where
  | resumed
  | notPaused
  | hung
deriving DecidableEq, Repr

/-- `Timer.resume` (`daemon.py` lines 73-77): raise `NotPaused` when the
status query does not report paused; otherwise send "RESUME". -/
def Timer.resume (st : Option Handle) : ResumeResult × Option Handle × List Msg :=
  match Timer.is_paused st with
  | (none, st', ms) => (ResumeResult.hung, st', ms)
  | (some false, st', ms) => (ResumeResult.notPaused, st', ms)
  | (some true, st', ms) => (ResumeResult.resumed, st', ms ++ [Msg.resume])

/-- A successfully decoded request payload, as matched by the `match
command:` in `main` (`daemon.py` lines 167-207): the five recognized
shapes, or `unrecognized` for any other decoded value (the `case _:`
arm). -/
inductive Request where
  | startReq (duration : Int)
  | stopReq
  | statusReq
  | pauseReq
  | resumeReq
  | unrecognized
deriving DecidableEq, Repr

/-- The raw bytes read from a connection: either `json.loads` decodes
them, or it raises (`malformed`). -/
inductive RawRequest where
  | malformed
  | valid (r : Request)
deriving DecidableEq, Repr

/-- The response dictionaries built in `main`. -/
inductive DResponse where
  | startOk (duration : Int)
  | startAlreadyRunning
  | stopOk
  | stopNotRunning
  | statusOk (duration remaining : Int) (is_paused : Bool)
  | statusIdle
  | pauseOk
  | pauseAlreadyPaused
  | pauseNotRunning
  | resumeOk
  | resumeNotPaused
  | invalidCommand
deriving DecidableEq, Repr

/-- The `match command:` dispatch of `main` over a decoded request.
`spawn` stands for `Process(target=run_timer, ...)`: the handle a fresh
start would store.  `none` models an operation that never returns
(a status round trip hung in `conn.recv()`). -/
def dispatch (spawn : Int → Handle) (st : Option Handle) :
    Request → Option (DResponse × Option Handle)
  | Request.startReq d =>
    match Timer.start st (spawn d) with
    | (StartResult.started, st', _) => some (DResponse.startOk d, st')
    | (StartResult.alreadyRunning, st', _) => some (DResponse.startAlreadyRunning, st')
  | Request.stopReq =>
    match Timer.stop st with
    | (StopResult.stopped, st', _) => some (DResponse.stopOk, st')
    | (StopResult.notRunning, st', _) => some (DResponse.stopNotRunning, st')
  | Request.statusReq =>
    match Timer.status st with
    | (StatusResult.got r, st') => some (DResponse.statusOk r.duration r.remaining r.is_paused, st')
    | (StatusResult.idle, st') => some (DResponse.statusIdle, st')
    | (StatusResult.hang, _) => none
  | Request.pauseReq =>
    match Timer.pause st with
    | (PauseResult.paused, st', _) => some (DResponse.pauseOk, st')
    | (PauseResult.alreadyPaused, st', _) => some (DResponse.pauseAlreadyPaused, st')
    | (PauseResult.notRunning, st', _) => some (DResponse.pauseNotRunning, st')
    | (PauseResult.hung, _, _) => none
  | Request.resumeReq =>
    match Timer.resume st with
    | (ResumeResult.resumed, st', _) => some (DResponse.resumeOk, st')
    | (ResumeResult.notPaused, st', _) => some (DResponse.resumeNotPaused, st')
    | (ResumeResult.hung, _, _) => none
  | Request.unrecognized => some (DResponse.invalidCommand, st)

/-- One connection of the accept loop: `json.loads` runs first, with no
surrounding try/except — a decode failure raises out of `main`, so no
response is written and the daemon process dies (`none`). -/
def handle_connection (spawn : Int → Handle) (st : Option Handle) :
    RawRequest → Option (DResponse × Option Handle)
  | RawRequest.malformed => none
  | RawRequest.valid r => dispatch spawn st r

/-- The `while True:` accept loop of `main`, run over a finite sequence
of incoming connections.  Returns the responses written back and whether
the daemon is still serving afterwards (`false` once an uncaught
exception has terminated it — later connections get no response). -/
def accept_loop (spawn : Int → Handle) (st : Option Handle) :
    List RawRequest → List DResponse × Bool
  | [] => ([], true)
  | raw :: rest =>
    match handle_connection spawn st raw with
    | none => ([], false)
    | some (resp, st') =>
      let r := accept_loop spawn st' rest
      (resp :: r.1, r.2)

/-- Zero-padding to width 2, the Python format spec `{value:0>2}` used
in `format_duration`. -/
def pad2 (n : Nat) : String :=
  if n < 10 then "0" ++ Nat.repr n else Nat.repr n

/-- `format_duration` (`cli.py` lines 64-71): assert the duration is at
most `99 * 3600` and non-negative (a failed assertion raises, modelled
by `none`), then render `hours:minutes:seconds`, each zero-padded to two
digits. -/
def format_duration (duration : Int) : Option String :=
  if 99 * 3600 < duration then none
  else if duration < 0 then none
  else
    let d := duration.toNat
    let hours := d / 3600
    let remaining := d % 3600
    let minutes := remaining / 60
    let seconds := remaining % 60
    some (pad2 hours ++ ":" ++ pad2 minutes ++ ":" ++ pad2 seconds)

/-- Helper: zero-padding a value below 100 always yields exactly two
characters. -/
lemma pad2_length_of_lt_100 : ∀ n : Nat, n < 100 → (pad2 n).length = 2 := by decide

/-- Claim C1 (refuted, code bug): the claim says that while the Runner
is paused, elapsed does not advance and remaining is unchanged across
ticks.  In `run_timer`, `elapsed_time` is recomputed as total wall-clock
time since `start` at every loop head, also while paused: with duration
10, a PAUSE at time 1 and STATUS queries at times 2 and 5, both replies
carry the paused flag, yet remaining falls from 8 to 5 with no RESUME in
between. -/
theorem c1_remaining_advances_while_paused :
    (run_timer 10 0 [⟨1, some Msg.pause⟩, ⟨2, some Msg.status⟩, ⟨5, some Msg.status⟩]).replies =
      [⟨10, 8, true⟩, ⟨10, 5, true⟩] := by decide

/-- Counterexample to claim C2: stopping a live timer succeeds but the
stored handle is not set to none. -/
theorem c2_stop_retains_handle_counterexample :
    (Timer.stop (some ⟨true, none⟩)).1 = StopResult.stopped ∧
    (Timer.stop (some ⟨true, none⟩)).2.1 ≠ none := by decide

/-- Claim C2 (amended): with a live handle, `Timer.stop` sends the Stop
message and leaves the stored handle unchanged — `stop` never assigns
`self._timer = None`; the handle is only dropped by a later liveness
reap after the Runner has exited. -/
theorem c2_stop_sends_stop_keeps_handle (h : Handle) (hl : h.alive = true) :
    Timer.stop (some h) = (StopResult.stopped, some h, [Msg.stop]) := by
  simp [Timer.stop, Timer.is_running, Timer.cleanup, hl]

/-- Witness for the amended claim C2 at a concrete live handle. -/
theorem c2_stop_sends_stop_keeps_handle_witness :
    Timer.stop (some ⟨true, none⟩) = (StopResult.stopped, some ⟨true, none⟩, [Msg.stop]) :=
  c2_stop_sends_stop_keeps_handle ⟨true, none⟩ rfl

/-- Claim C3 (refuted, code bug): `main` runs `json.loads` on the raw
request with no try/except, so a payload that fails to decode raises out
of the accept loop: no InvalidCommand response is written and the
following connection is never served.  Only a payload that decodes but
matches no command shape gets the InvalidCommand reply with the loop
continuing. -/
theorem c3_malformed_request_kills_daemon :
    accept_loop (fun _ => ⟨true, none⟩) none
        [RawRequest.malformed, RawRequest.valid Request.stopReq] = ([], false) ∧
    accept_loop (fun _ => ⟨true, none⟩) none
        [RawRequest.valid Request.unrecognized, RawRequest.valid Request.stopReq] =
      ([DResponse.invalidCommand, DResponse.stopNotRunning], true) := by decide

/-- Claim C4: in every Runner execution the begin hook runs exactly once
at startup; on natural completion the hooks are begin, then done, then
end (done and end exactly once each); on Stop the done hook is skipped
and the hooks are begin then end. -/
theorem c4_hook_discipline (d s : Int) (ticks : List TickObs) :
    ((run_timer d s ticks).hooks.count Hook.hbegin = 1) ∧
    ((run_timer d s ticks).outcome = LoopOutcome.natural →
      (run_timer d s ticks).hooks = [Hook.hbegin, Hook.hdone, Hook.hend]) ∧
    ((run_timer d s ticks).outcome = LoopOutcome.stopped →
      (run_timer d s ticks).hooks = [Hook.hbegin, Hook.hend]) := by
  rcases h : (runLoop d s false ticks).2 <;> simp [run_timer, h]

/-- Witness for claim C4: a natural completion and an explicit stop at
concrete schedules. -/
theorem c4_hook_discipline_witness :
    (run_timer 1 0 [⟨1, none⟩]).hooks = [Hook.hbegin, Hook.hdone, Hook.hend] ∧
    (run_timer 5 0 [⟨1, some Msg.stop⟩]).hooks = [Hook.hbegin, Hook.hend] :=
  ⟨(c4_hook_discipline 1 0 [⟨1, none⟩]).2.1 (by decide),
   (c4_hook_discipline 5 0 [⟨1, some Msg.stop⟩]).2.2 (by decide)⟩

/-- Counterexample to claim C5 at duration 0: the Runner's while
condition fails at the very first evaluation, so the loop body never
runs and no status reply is ever produced — a STATUS message in the
channel goes unanswered and the run completes naturally; once the exit
is reaped, `Timer.status` reports idle rather than a payload with
duration 0. -/
theorem c5_zero_duration_counterexample :
    (run_timer 0 0 [⟨0, some Msg.status⟩]).replies = [] ∧
    (run_timer 0 0 [⟨0, some Msg.status⟩]).outcome = LoopOutcome.natural ∧
    (Timer.status (some ⟨false, none⟩)).1 = StatusResult.idle := by decide

/-- Claim C5 (amended): for every positive duration, a STATUS consumed
at a tick at which the Runner is still inside its loop (clock at or
after start, elapsed below duration) is answered with a payload whose
duration equals the requested duration and whose remaining lies between
0 and that duration. -/
theorem c5_start_status_bounds (d s : Int) (t : TickObs) (ts : List TickObs)
    (h0 : s ≤ t.now) (h1 : t.now - s < d) (hm : t.msg = some Msg.status) :
    ∃ r rs, (run_timer d s (t :: ts)).replies = r :: rs ∧
      r.duration = d ∧ 0 ≤ r.remaining ∧ r.remaining ≤ d ∧ r.is_paused = false := by
  obtain ⟨now, msg⟩ := t
  simp only at hm h0 h1
  subst hm
  have hcond : ¬ d ≤ now - s := by omega
  refine ⟨⟨d, d - (now - s), false⟩, (runLoop d s false ts).1, ?_, rfl,
    by show (0 : Int) ≤ d - (now - s); omega, by show d - (now - s) ≤ d; omega, rfl⟩
  simp [run_timer, runLoop, hcond]

/-- Witness for the amended claim C5 at duration 5 with an immediate
STATUS. -/
theorem c5_start_status_bounds_witness :
    ∃ r rs, (run_timer 5 0 [⟨0, some Msg.status⟩]).replies = r :: rs ∧
      r.duration = 5 ∧ 0 ≤ r.remaining ∧ r.remaining ≤ 5 ∧ r.is_paused = false :=
  c5_start_status_bounds 5 0 ⟨0, some Msg.status⟩ [] (by decide) (by decide) rfl

/-- Claim C6: `Timer.pause` returns AlreadyPaused when the status query
reports the paused flag set; returns NotRunning when no live handle
survives the reap; otherwise sends the Pause message (after the STATUS
of the paused-check) and succeeds.  Moreover the Runner answers any
STATUS that follows a PAUSE (with no intervening RESUME) with the paused
flag set, so a second consecutive pause sees AlreadyPaused. -/
theorem c6_pause_protocol (h : Handle) (r : StatusReply) (st : Option Handle)
    (hl : h.alive = true) (hr : h.reply = some r) (hdead : Timer.cleanup st = none) :
    (r.is_paused = true → (Timer.pause (some h)).1 = PauseResult.alreadyPaused) ∧
    ((Timer.pause st).1 = PauseResult.notRunning) ∧
    (r.is_paused = false →
      Timer.pause (some h) = (PauseResult.paused, some h, [Msg.status, Msg.pause])) ∧
    (∀ d s t1 t2 : Int, ∀ rep : StatusReply, ∀ rs : List StatusReply,
      (run_timer d s [⟨t1, some Msg.pause⟩, ⟨t2, some Msg.status⟩]).replies = rep :: rs →
      rep.is_paused = true) := by
  refine ⟨?_, ?_, ?_, ?_⟩
  · intro hp
    simp [Timer.pause, Timer.is_paused, Timer.status, Timer.is_running, Timer.cleanup, hl, hr, hp]
  · have hst : Timer.status st = (StatusResult.idle, none) := by
      simp [Timer.status, Timer.is_running, hdead]
    simp [Timer.pause, Timer.is_paused, hst, Timer.is_running, Timer.cleanup]
  · intro hp
    simp [Timer.pause, Timer.is_paused, Timer.status, Timer.is_running, Timer.cleanup, hl, hr, hp]
  · intro d s t1 t2 rep rs hrep
    by_cases hc1 : d ≤ t1 - s
    · simp [run_timer, runLoop, hc1] at hrep
    · by_cases hc2 : d ≤ t2 - s
      · simp [run_timer, runLoop, hc1, hc2] at hrep
      · simp [run_timer, runLoop, hc1, hc2] at hrep
        rw [← hrep.1]

/-- Witness for claim C6: pausing an already-paused timer, pausing with
no handle, and pausing a running unpaused timer, at concrete handles. -/
theorem c6_pause_protocol_witness :
    (Timer.pause (some ⟨true, some ⟨10, 5, true⟩⟩)).1 = PauseResult.alreadyPaused ∧
    (Timer.pause none).1 = PauseResult.notRunning ∧
    Timer.pause (some ⟨true, some ⟨10, 5, false⟩⟩) =
      (PauseResult.paused, some ⟨true, some ⟨10, 5, false⟩⟩, [Msg.status, Msg.pause]) :=
  ⟨(c6_pause_protocol ⟨true, some ⟨10, 5, true⟩⟩ ⟨10, 5, true⟩ none rfl rfl rfl).1 rfl,
   (c6_pause_protocol ⟨true, some ⟨10, 5, true⟩⟩ ⟨10, 5, true⟩ none rfl rfl rfl).2.1,
   (c6_pause_protocol ⟨true, some ⟨10, 5, false⟩⟩ ⟨10, 5, false⟩ none rfl rfl rfl).2.2.1 rfl⟩

/-- Claim C7: starting while a live handle exists fails with
AlreadyRunning, stores no new handle, sends no message to the Runner,
and leaves the stored handle (and with it the running timer's state)
unchanged. -/
theorem c7_start_already_running (h newHandle : Handle) (hl : h.alive = true) :
    Timer.start (some h) newHandle = (StartResult.alreadyRunning, some h, []) := by
  simp [Timer.start, Timer.is_running, Timer.cleanup, hl]

/-- Witness for claim C7 at a concrete live handle. -/
theorem c7_start_already_running_witness :
    Timer.start (some ⟨true, none⟩) ⟨true, some ⟨3, 3, false⟩⟩ =
      (StartResult.alreadyRunning, some ⟨true, none⟩, []) :=
  c7_start_already_running ⟨true, none⟩ ⟨true, some ⟨3, 3, false⟩⟩ rfl

/-- Claim C8 (refuted, code bug): the status round trip ends in
`conn.recv()` called with no timeout, so with a Runner that never
replies the Supervisor is still blocked after any number of waiting
steps, and `Timer.status` hangs instead of producing an internal
error. -/
theorem c8_status_recv_has_no_timeout :
    (∀ n : Nat, status_recv_waiting none n = true) ∧
    (Timer.status (some ⟨true, none⟩)).1 = StatusResult.hang :=
  ⟨fun _ => rfl, rfl⟩

/-- Claim C9: for durations between 0 and 99 hours, `format_duration`
renders hours, minutes and seconds of the duration, each zero-padded to
two characters and separated by colons, with minutes and seconds below
60 and the three fields recombining to the input; outside that range the
assertions fail. -/
theorem c9_format_duration (d : Int) :
    (0 ≤ d → d ≤ 99 * 3600 →
      format_duration d =
        some (pad2 (d.toNat / 3600) ++ ":" ++ pad2 (d.toNat % 3600 / 60) ++ ":" ++
          pad2 (d.toNat % 3600 % 60)) ∧
      (pad2 (d.toNat / 3600)).length = 2 ∧
      (pad2 (d.toNat % 3600 / 60)).length = 2 ∧
      (pad2 (d.toNat % 3600 % 60)).length = 2 ∧
      d.toNat % 3600 / 60 < 60 ∧ d.toNat % 3600 % 60 < 60 ∧
      (d.toNat / 3600) * 3600 + (d.toNat % 3600 / 60) * 60 + d.toNat % 3600 % 60 = d.toNat) ∧
    ((d < 0 ∨ 99 * 3600 < d) → format_duration d = none) := by
  constructor
  · intro h0 h2
    have hlt : ¬ 99 * 3600 < d := not_lt.mpr h2
    have hneg : ¬ d < 0 := not_lt.mpr h0
    have e1 : format_duration d =
        some (pad2 (d.toNat / 3600) ++ ":" ++ pad2 (d.toNat % 3600 / 60) ++ ":" ++
          pad2 (d.toNat % 3600 % 60)) := by
      unfold format_duration
      rw [if_neg hlt, if_neg hneg]
    refine ⟨e1, ?_, ?_, ?_, by omega, by omega, by omega⟩
    · exact pad2_length_of_lt_100 _ (by omega)
    · exact pad2_length_of_lt_100 _ (by omega)
    · exact pad2_length_of_lt_100 _ (by omega)
  · rintro (hneg | hbig)
    · have hlt : ¬ 99 * 3600 < d := by omega
      unfold format_duration
      rw [if_neg hlt, if_pos hneg]
    · unfold format_duration
      rw [if_pos hbig]

/-- Witness for claim C9 at one hour, one minute and one second, and at
a negative duration. -/
theorem c9_format_duration_witness :
    format_duration 3661 =
      some (pad2 ((3661 : Int).toNat / 3600) ++ ":" ++ pad2 ((3661 : Int).toNat % 3600 / 60) ++
        ":" ++ pad2 ((3661 : Int).toNat % 3600 % 60)) ∧
    format_duration (-1) = none :=
  ⟨((c9_format_duration 3661).1 (by decide) (by decide)).1,
   (c9_format_duration (-1)).2 (Or.inl (by decide))⟩

/-- Claim C10: with a negative duration, the Runner's while condition
fails at the first evaluation (wall clock at or after start), so the
loop body never runs: no status reply is produced, the run counts as
natural completion with hooks begin, done, end each once, and a status
query on the reaped (dead) handle reports idle. -/
theorem c10_negative_duration (d s : Int) (t : TickObs) (ts : List TickObs)
    (hd : d < 0) (ht : s ≤ t.now) :
    (run_timer d s (t :: ts)).outcome = LoopOutcome.natural ∧
    (run_timer d s (t :: ts)).hooks = [Hook.hbegin, Hook.hdone, Hook.hend] ∧
    (run_timer d s (t :: ts)).replies = [] ∧
    (∀ rep : Option StatusReply, (Timer.status (some ⟨false, rep⟩)).1 = StatusResult.idle) := by
  have hcond : d ≤ t.now - s := by omega
  refine ⟨?_, ?_, ?_, fun rep => ?_⟩ <;>
    simp [run_timer, runLoop, hcond, Timer.status, Timer.is_running, Timer.cleanup]

/-- Witness for claim C10 at duration -1 with a pending STATUS. -/
theorem c10_negative_duration_witness :
    (run_timer (-1) 0 [⟨0, some Msg.status⟩]).outcome = LoopOutcome.natural ∧
    (run_timer (-1) 0 [⟨0, some Msg.status⟩]).hooks = [Hook.hbegin, Hook.hdone, Hook.hend] ∧
    (run_timer (-1) 0 [⟨0, some Msg.status⟩]).replies = [] ∧
    (Timer.status (some ⟨false, none⟩)).1 = StatusResult.idle :=
  have h := c10_negative_duration (-1) 0 ⟨0, some Msg.status⟩ [] (by decide) (by decide)
  ⟨h.1, h.2.1, h.2.2.1, h.2.2.2 none⟩

end Pymodoro
